import Mathlib

/-!
Verification of the videoteka download manager against its specification.

The Python sources are shallowly embedded as pure Lean functions:
  * `DownloadItem`, `Settings`  — the dataclasses of src/models/settings.py
  * `DownloadQueue.*`           — src/models/download_queue.py (file IO is
    modelled as the identity on the serialized record list; `save` keeps the
    filtering the code performs before writing and `load` keeps the status
    normalisation the code performs after reading)
  * `DownloadManager.*`         — src/downloader/download_manager.py, with the
    mutable object state (`running`, `active_downloads`) made an explicit
    `DMState` and task submission recorded in a list
  * `YouTubeProgressHook.progress_hook`, `YouTubeHandler` format selection
                                — src/downloader/youtube_handler.py
  * `MainWindow.retry_download` — src/ui/main_window.py
-/

namespace Videoteka

/-- `DownloadItem` dataclass of src/models/settings.py.  Python's float
`progress` is modelled as `ℚ`; all other fields are the strings the code
uses.  Default field values are the dataclass defaults. -/
structure DownloadItem where
  url : String
  title : String := ""
  status : String := "queued"
  progress : ℚ := 0
  speed : String := "0.0 MB/s"
  eta : String := ""
  file_size : String := ""
  output_path : String := ""
deriving DecidableEq, Repr

/-- `Settings` dataclass of src/models/settings.py with its default values. -/
structure Settings where
  video_quality : String := "best"
  preferred_format : String := "mp4"
  audio_quality : String := "best"
  download_subtitles : Bool := true
  subtitles_language : String := "en"
  max_concurrent_downloads : Nat := 3
  download_folder : String := ""
deriving DecidableEq, Repr

/-- The default `Settings()` record. -/
def Settings.default : Settings := {}

/-- A parsed settings JSON object: each `Settings` field is either present
with a value or absent.  This is the argument Python passes as `cls(**data)`
in `Settings.from_file`. -/
structure SettingsData where
  video_quality : Option String := none
  preferred_format : Option String := none
  audio_quality : Option String := none
  download_subtitles : Option Bool := none
  subtitles_language : Option String := none
  max_concurrent_downloads : Option Nat := none
  download_folder : Option String := none
deriving DecidableEq, Repr

/-- `Settings.from_file` (src/models/settings.py lines 49-62) on a JSON object
whose keys are a subset of the `Settings` fields: `cls(**data)` takes each
present key's value and the dataclass default for each missing key. -/
def Settings.from_file (data : SettingsData) : Settings :=
  { video_quality := data.video_quality.getD "best"
    preferred_format := data.preferred_format.getD "mp4"
    audio_quality := data.audio_quality.getD "best"
    download_subtitles := data.download_subtitles.getD true
    subtitles_language := data.subtitles_language.getD "en"
    max_concurrent_downloads := data.max_concurrent_downloads.getD 3
    download_folder := data.download_folder.getD "" }

namespace DownloadQueue

/-- `DownloadQueue.remove` (src/models/download_queue.py lines 51-54):
filters out every item with the given url and returns
`len(self.items) == 0` computed on the list AFTER the removal. -/
def remove (items : List DownloadItem) (url : String) :
    List DownloadItem × Bool :=
  let items' := items.filter fun item => item.url ≠ url
  (items', items'.length == 0)

/-- `DownloadQueue.get_item` (lines 56-61): first item with the url. -/
def get_item (items : List DownloadItem) (url : String) : Option DownloadItem :=
  items.find? fun item => item.url == url

/-- `DownloadQueue.save` (lines 81-89): the serialized snapshot is the list of
`to_dict` records of the non-completed items; serialization of a record is
lossless, so the snapshot is modelled as the filtered list itself. -/
def save (items : List DownloadItem) : List DownloadItem :=
  items.filter fun item => item.status ≠ "completed"

/-- `DownloadQueue.load` (lines 91-110): each stored record is rebuilt with
`DownloadItem.from_dict` and any item whose status is `downloading` or
`paused` has its status reset to `queued`. -/
def load (saved : List DownloadItem) : List DownloadItem :=
  saved.map fun item =>
    if item.status = "downloading" ∨ item.status = "paused" then
      { item with status := "queued" }
    else item

/-- `DownloadQueue.get_queued_items` (lines 77-79). -/
def get_queued_items (items : List DownloadItem) : List DownloadItem :=
  items.filter fun item => item.status = "queued"

end DownloadQueue

/-- Mutable state of a `DownloadManager` object
(src/downloader/download_manager.py): the `running` flag, the
`active_downloads` map (modelled as the list of its url keys), and — to make
executor submissions observable — the list of urls of items submitted to the
thread-pool executor so far. -/
structure DMState where
  running : Bool := false
  active_downloads : List String := []
  submitted : List String := []
deriving DecidableEq, Repr

namespace DownloadManager

/-- `DownloadManager.download_multiple` (lines 25-36): if `self.running` the
call returns at once; otherwise it sets `running = True` and submits one task
per item whose status is `queued`. -/
def download_multiple (s : DMState) (items : List DownloadItem) : DMState :=
  if s.running then s
  else
    { s with
      running := true
      submitted := s.submitted ++
        (items.filter fun item => item.status = "queued").map
          fun item => item.url }

/-- End of `DownloadManager._download_single` (lines 38-64): the finished
task deletes its url from `active_downloads`; `running` is never touched. -/
def downloadFinished (s : DMState) (url : String) : DMState :=
  { s with active_downloads := s.active_downloads.erase url }

/-- `DownloadManager.stop_all` (lines 78-82): sets `self.running = False`
and nothing else. -/
def stop_all (s : DMState) : DMState :=
  { s with running := false }

end DownloadManager

/-! ### Thread-pool semantics

`download_multiple` submits its tasks to a `ThreadPoolExecutor` constructed
with `max_workers = max_concurrent_downloads` (main_window.py line 55,
download_manager.py lines 18-21).  The executor itself is external library
code; its scheduling is modelled from the spec. -/

/-- Abstract state of the worker pool: tasks submitted but not yet started,
tasks currently executing, tasks finished. -/
structure PoolState where
  pending : Nat
  running : Nat
  finished : Nat
deriving DecidableEq, Repr

/-- Modelled from the spec: the `ThreadPoolExecutor` scheduling model —
"a fixed-size worker pool (size = configured concurrency limit) executes one
blocking download call per task".  A pending task may start only while fewer
than `K` tasks are executing; a running task may finish. -/
inductive PoolStep (K : Nat) : PoolState → PoolState → Prop
  | start (s : PoolState) (hp : 0 < s.pending) (hr : s.running < K) :
      PoolStep K s ⟨s.pending - 1, s.running + 1, s.finished⟩
  | finish (s : PoolState) (hr : 0 < s.running) :
      PoolStep K s ⟨s.pending, s.running - 1, s.finished + 1⟩

/-- Pool state right after `download_multiple` dispatches a batch: one
pending task per `queued` item, none started yet. -/
def dispatchInit (items : List DownloadItem) : PoolState :=
  ⟨(items.filter fun item => item.status = "queued").length, 0, 0⟩

/-! ### Progress hook (src/downloader/youtube_handler.py) -/

/-- A yt-dlp progress-callback payload dict, restricted to the keys
`progress_hook` reads; `none` models an absent key (or `None` value).
`speed` and `eta` are raw numbers, modelled as `ℚ`. -/
structure ProgressPayload where
  status : Option String := none
  downloaded_bytes : Option Nat := none
  total_bytes : Option Nat := none
  total_bytes_estimate : Option Nat := none
  speed : Option ℚ := none
  eta : Option ℚ := none
deriving DecidableEq, Repr

/-- The dict `YouTubeProgressHook.progress_hook` emits on its
`progress_updated` signal (lines 46-53). -/
structure ProgressEvent where
  status : String
  downloaded_bytes : Nat
  total_bytes : Nat
  progress : ℚ
  speed : ℚ
  eta : ℚ
deriving DecidableEq, Repr

namespace YouTubeProgressHook

/-- `d.get('downloaded_bytes', 0)` (line 28). -/
def payloadDownloaded (d : ProgressPayload) : Nat :=
  d.downloaded_bytes.getD 0

/-- `d.get('total_bytes') or d.get('total_bytes_estimate', 0)` (line 29):
Python's `or` falls through to the estimate when `total_bytes` is absent,
`None`, or `0` (falsy). -/
def payloadTotal (d : ProgressPayload) : Nat :=
  match d.total_bytes with
  | some t => if t = 0 then d.total_bytes_estimate.getD 0 else t
  | none => d.total_bytes_estimate.getD 0

/-- `YouTubeProgressHook.progress_hook` (lines 20-53): returns early unless
the payload's status (defaulted to `'downloading'`) is `'downloading'`;
otherwise computes the percentage and emits the progress dict.  `none` means
no signal was emitted. -/
def progress_hook (d : ProgressPayload) : Option ProgressEvent :=
  let status := d.status.getD "downloading"
  if status ≠ "downloading" then none
  else
    let downloaded := payloadDownloaded d
    let total := payloadTotal d
    let progress : ℚ :=
      if 0 < total then ((downloaded : ℚ) / (total : ℚ)) * 100 else 0
    some
      { status := status
        downloaded_bytes := downloaded
        total_bytes := total
        progress := progress
        speed := d.speed.getD 0
        eta := d.eta.getD 0 }

end YouTubeProgressHook

namespace YouTubeHandler

/-- `YouTubeHandler._get_format_string` (lines 116-139), with the config dict
fields read through the `Settings` record (`config.to_dict()` is the
identity on these fields).  The Python `format_map.get(quality,
format_map['best'])` makes every quality other than the four video tiers and
`'audio'` fall back to the `'best'` selector, and every `audio_quality`
other than `'best'` and `'192k'` fall into the `abr<=128` branch. -/
def get_format_string (config : Settings) : String :=
  let quality := config.video_quality
  let format_type := config.preferred_format
  if quality = "audio" then
    let audio_quality := config.audio_quality
    if audio_quality = "best" then "bestaudio/best"
    else if audio_quality = "192k" then "bestaudio[ext=m4a]/bestaudio"
    else "bestaudio[abr<=128]/bestaudio"
  else if quality = "1080p" then
    "bestvideo[height<=1080][ext=" ++ format_type ++
      "]+bestaudio[ext=m4a]/best[height<=1080][ext=" ++ format_type ++ "]/best"
  else if quality = "720p" then
    "bestvideo[height<=720][ext=" ++ format_type ++
      "]+bestaudio[ext=m4a]/best[height<=720][ext=" ++ format_type ++ "]/best"
  else if quality = "480p" then
    "bestvideo[height<=480][ext=" ++ format_type ++
      "]+bestaudio[ext=m4a]/best[height<=480][ext=" ++ format_type ++ "]/best"
  else
    "bestvideo[ext=" ++ format_type ++
      "]+bestaudio[ext=m4a]/best[ext=" ++ format_type ++ "]/best"

end YouTubeHandler

/-- Is `pat` an initial segment of the second list? -/
def listStartsWith : List Char → List Char → Bool
  | [], _ => true
  | _ :: _, [] => false
  | a :: as, b :: bs => a == b && listStartsWith as bs

/-- Does `pat` occur contiguously anywhere in the second list? -/
def listContains (pat : List Char) : List Char → Bool
  | [] => pat.isEmpty
  | c :: rest => listStartsWith pat (c :: rest) || listContains pat rest

/-- Does a format selector contain an explicit audio-bitrate ceiling
(an `abr<=` filter)?  Formalises the spec's "fallbacks by explicit
audio-bitrate ceilings". -/
def hasAudioBitrateCeiling (sel : String) : Bool :=
  listContains "abr<=".toList sel.toList

/-! ### Retry (src/ui/main_window.py) -/

/-- Replace the first item carrying `url` by `f` of it, leaving the rest of
the queue unchanged — the effect of Python's in-place mutation of the object
`get_item` returned. -/
def replaceFirst (items : List DownloadItem) (url : String)
    (f : DownloadItem → DownloadItem) : List DownloadItem :=
  match items with
  | [] => []
  | item :: rest =>
    if item.url = url then f item :: rest
    else item :: replaceFirst rest url f

/-- The field resets `MainWindow.retry_download` performs (lines 693-699). -/
def resetForRetry (item : DownloadItem) : DownloadItem :=
  { item with
    status := "queued"
    progress := 0
    speed := "0.0 MB/s"
    eta := ""
    file_size := ""
    output_path := "" }

/-- `MainWindow.retry_download` (src/ui/main_window.py lines 689-710),
restricted to its effect on the queue: the item `get_item(url)` returns is
reset and re-queued only when its status is `error`; otherwise the queue is
untouched.  (The subsequent `download_multiple([item], settings)` call is
the `DownloadManager.download_multiple` modelled above.) -/
def MainWindow.retry_download (items : List DownloadItem) (url : String) :
    List DownloadItem :=
  match DownloadQueue.get_item items url with
  | none => items
  | some item =>
    if item.status = "error" then replaceFirst items url resetForRetry
    else items

/-! ### Concrete sample items used by witnesses -/

/-- A sample item persisted mid-download. -/
def sampleDL : DownloadItem :=
  { url := "https://example.com/v1", title := "t1", status := "downloading",
    progress := 37, speed := "1.2 MB/s", eta := "00:10",
    file_size := "10MB", output_path := "" }

/-- A sample item in `error` state. -/
def sampleErr : DownloadItem :=
  { url := "https://example.com/v2", title := "t2", status := "error",
    progress := 42, speed := "2.0 MB/s", eta := "00:05",
    file_size := "boom", output_path := "p" }

/-- A sample freshly queued item. -/
def sampleQueued : DownloadItem :=
  { url := "https://example.com/v3", title := "t3" }

/-! ## Theorems -/

/-- C10: `DownloadQueue.remove(url)` removes all items with that url (every
remaining item has a different url, and every item with a different url
remains), and returns `True` iff the queue is empty after the removal. -/
theorem remove_filters_url_and_returns_emptiness
    (items : List DownloadItem) (url : String) :
    ((DownloadQueue.remove items url).1.all fun item => item.url != url) = true
    ∧ (∀ item, item ∈ items → item.url ≠ url →
        item ∈ (DownloadQueue.remove items url).1)
    ∧ ((DownloadQueue.remove items url).2 = true ↔
        (DownloadQueue.remove items url).1 = []) := by
  unfold DownloadQueue.remove
  refine ⟨?_, ?_, ?_⟩
  · simp only [List.all_eq_true, List.mem_filter, bne_iff_ne]
    intro item h
    simpa using h.2
  · intro item hmem hurl
    simp only [List.mem_filter]
    exact ⟨hmem, by simpa using hurl⟩
  · simp [List.length_eq_zero]

/-- C10 witness: on a two-item queue, removing one url keeps the other item
and returns `false` even though an item was removed. -/
theorem remove_filters_url_witness :
    (sampleQueued ∈ (DownloadQueue.remove [sampleDL, sampleQueued] sampleDL.url).1)
    ∧ ((DownloadQueue.remove [sampleDL, sampleQueued] sampleDL.url).2 = true ↔
        (DownloadQueue.remove [sampleDL, sampleQueued] sampleDL.url).1 = []) :=
  ⟨(remove_filters_url_and_returns_emptiness [sampleDL, sampleQueued]
      sampleDL.url).2.1 sampleQueued (by simp) (by decide),
   (remove_filters_url_and_returns_emptiness [sampleDL, sampleQueued]
      sampleDL.url).2.2⟩

/-- C4: loading a settings object with some fields missing yields the
default for each missing field and the stored value for each present
field. -/
theorem settings_from_file_defaults_missing_preserves_present
    (data : SettingsData) :
    ((data.video_quality = none → (Settings.from_file data).video_quality = "best")
      ∧ ∀ v, data.video_quality = some v → (Settings.from_file data).video_quality = v)
    ∧ ((data.preferred_format = none → (Settings.from_file data).preferred_format = "mp4")
      ∧ ∀ v, data.preferred_format = some v → (Settings.from_file data).preferred_format = v)
    ∧ ((data.audio_quality = none → (Settings.from_file data).audio_quality = "best")
      ∧ ∀ v, data.audio_quality = some v → (Settings.from_file data).audio_quality = v)
    ∧ ((data.download_subtitles = none → (Settings.from_file data).download_subtitles = true)
      ∧ ∀ v, data.download_subtitles = some v → (Settings.from_file data).download_subtitles = v)
    ∧ ((data.subtitles_language = none → (Settings.from_file data).subtitles_language = "en")
      ∧ ∀ v, data.subtitles_language = some v → (Settings.from_file data).subtitles_language = v)
    ∧ ((data.max_concurrent_downloads = none → (Settings.from_file data).max_concurrent_downloads = 3)
      ∧ ∀ v, data.max_concurrent_downloads = some v → (Settings.from_file data).max_concurrent_downloads = v)
    ∧ ((data.download_folder = none → (Settings.from_file data).download_folder = "")
      ∧ ∀ v, data.download_folder = some v → (Settings.from_file data).download_folder = v) := by
  unfold Settings.from_file
  refine ⟨⟨?_, ?_⟩, ⟨?_, ?_⟩, ⟨?_, ?_⟩, ⟨?_, ?_⟩, ⟨?_, ?_⟩, ⟨?_, ?_⟩, ⟨?_, ?_⟩⟩ <;>
    first
      | (intro h; simp [h])
      | (intro v h; simp [h])

/-- C4 witness: a file carrying only `video_quality` keeps that value and
gets the defaults for (for instance) `preferred_format` and
`max_concurrent_downloads`. -/
theorem settings_from_file_witness :
    (Settings.from_file { video_quality := some "720p" }).video_quality = "720p"
    ∧ (Settings.from_file { video_quality := some "720p" }).preferred_format = "mp4"
    ∧ (Settings.from_file { video_quality := some "720p" }).max_concurrent_downloads = 3 := by
  obtain ⟨⟨-, h1⟩, ⟨h2, -⟩, -, -, -, ⟨h6, -⟩, -⟩ :=
    settings_from_file_defaults_missing_preserves_present
      { video_quality := some "720p" }
  exact ⟨h1 "720p" rfl, h2 rfl, h6 rfl⟩

/-- C8: an item persisted as `downloading` or `paused` is present after
`load` with status `queued` and every other field unaltered; `load` keeps
every stored record. -/
theorem load_resets_downloading_paused_only_status
    (saved : List DownloadItem) (item : DownloadItem)
    (hmem : item ∈ saved)
    (h : item.status = "downloading" ∨ item.status = "paused") :
    { item with status := "queued" } ∈ DownloadQueue.load saved
    ∧ (DownloadQueue.load saved).length = saved.length := by
  unfold DownloadQueue.load
  constructor
  · exact List.mem_map.mpr ⟨item, hmem, by simp [h]⟩
  · simp

/-- C8 witness: loading the singleton queue holding `sampleDL`
(status `downloading`) yields it as `queued`, all other fields intact. -/
theorem load_resets_downloading_witness :
    { sampleDL with status := "queued" } ∈ DownloadQueue.load [sampleDL]
    ∧ (DownloadQueue.load [sampleDL]).length = 1 :=
  load_resets_downloading_paused_only_status [sampleDL] sampleDL
    (by simp) (Or.inl rfl)

/-- C2 as stated is false: `sampleDL` is not completed (status
`downloading`), yet save-then-load does not reproduce its status — the
reloaded queue's statuses differ from the original one's. -/
theorem save_load_status_counterexample :
    sampleDL.status ≠ "completed"
    ∧ (DownloadQueue.load (DownloadQueue.save [sampleDL])).map
        DownloadItem.status ≠ [sampleDL.status] := by
  constructor
  · decide
  · decide

/-- C2 amended: save-then-load reproduces every non-completed item's url and
title exactly and its status exactly unless it was `downloading` or `paused`,
in which case the status comes back `queued`; no completed item survives the
round trip. -/
theorem save_load_roundtrip (items : List DownloadItem) :
    (DownloadQueue.load (DownloadQueue.save items)).map DownloadItem.url
      = (items.filter fun i => i.status ≠ "completed").map DownloadItem.url
    ∧ (DownloadQueue.load (DownloadQueue.save items)).map DownloadItem.title
      = (items.filter fun i => i.status ≠ "completed").map DownloadItem.title
    ∧ (DownloadQueue.load (DownloadQueue.save items)).map DownloadItem.status
      = (items.filter fun i => i.status ≠ "completed").map
          (fun i => if i.status = "downloading" ∨ i.status = "paused"
            then "queued" else i.status)
    ∧ ((DownloadQueue.load (DownloadQueue.save items)).all
        fun i => i.status != "completed") = true := by
  unfold DownloadQueue.load DownloadQueue.save
  refine ⟨?_, ?_, ?_, ?_⟩
  · rw [List.map_map]
    refine List.map_congr_left fun a _ => ?_
    simp only [Function.comp]
    split_ifs <;> rfl
  · rw [List.map_map]
    refine List.map_congr_left fun a _ => ?_
    simp only [Function.comp]
    split_ifs <;> rfl
  · rw [List.map_map]
    refine List.map_congr_left fun a _ => ?_
    simp only [Function.comp]
    split_ifs <;> rfl
  · simp only [List.all_eq_true, List.mem_map, List.mem_filter]
    rintro x ⟨a, ⟨-, ha⟩, rfl⟩
    split_ifs with hc
    · rfl
    · simpa using ha

/-- Replacing the first item carrying `url` commutes with `get_item` when
the replacement keeps the url. -/
theorem get_item_replaceFirst (items : List DownloadItem) (url : String)
    (f : DownloadItem → DownloadItem) (hf : ∀ item, (f item).url = item.url) :
    DownloadQueue.get_item (replaceFirst items url f) url
      = (DownloadQueue.get_item items url).map f := by
  induction items with
  | nil => rfl
  | cons a l ih =>
    by_cases h : a.url = url
    · unfold replaceFirst DownloadQueue.get_item
      rw [if_pos h]
      simp [List.find?_cons, hf, h]
    · have hb : (a.url == url) = false := by simp [h]
      unfold replaceFirst DownloadQueue.get_item
      rw [if_neg h]
      simp only [List.find?_cons, hb]
      exact ih

/-- C7: retrying an item whose status is `error` resets progress to 0,
speed/eta/file_size/output_path to their zero/empty defaults, sets the
status to `queued`, and leaves url and title (and every other item)
unchanged. -/
theorem retry_download_resets_error_item
    (items : List DownloadItem) (url : String) (item : DownloadItem)
    (hfind : DownloadQueue.get_item items url = some item)
    (herr : item.status = "error") :
    DownloadQueue.get_item (MainWindow.retry_download items url) url
      = some { item with
          status := "queued", progress := 0, speed := "0.0 MB/s",
          eta := "", file_size := "", output_path := "" } := by
  unfold MainWindow.retry_download
  rw [hfind]
  dsimp only
  rw [if_pos herr,
    get_item_replaceFirst items url resetForRetry fun _ => rfl, hfind]
  rfl

/-- C7 witness: retrying `sampleErr` in a singleton queue yields it queued
with all progress fields reset. -/
theorem retry_download_resets_witness :
    DownloadQueue.get_item
        (MainWindow.retry_download [sampleErr] sampleErr.url) sampleErr.url
      = some { sampleErr with
          status := "queued", progress := 0, speed := "0.0 MB/s",
          eta := "", file_size := "", output_path := "" } :=
  retry_download_resets_error_item [sampleErr] sampleErr.url sampleErr
    (by simp [DownloadQueue.get_item]) rfl

/-- C9: the `running` flag is a latch — any `download_multiple` call leaves
it set, a finishing download never clears it, only `stop_all` clears it,
and while it is set every `download_multiple` call (the one `retry_download`
makes included) is a no-op on the manager state. -/
theorem running_flag_latch (s : DMState) (items : List DownloadItem)
    (url : String) :
    (DownloadManager.download_multiple s items).running = true
    ∧ (DownloadManager.downloadFinished s url).running = s.running
    ∧ (DownloadManager.stop_all s).running = false
    ∧ (s.running = true → DownloadManager.download_multiple s items = s) := by
  refine ⟨?_, rfl, rfl, ?_⟩
  · unfold DownloadManager.download_multiple
    split_ifs with h
    · exact h
    · rfl
  · intro h
    unfold DownloadManager.download_multiple
    simp [h]

/-- C9 witness: with the flag set, dispatching a queued item changes
nothing, and `stop_all` clears the flag. -/
theorem running_flag_latch_witness :
    DownloadManager.download_multiple
        { running := true } [sampleQueued] = { running := true }
    ∧ (DownloadManager.stop_all { running := true }).running = false :=
  ⟨(running_flag_latch { running := true } [sampleQueued] "").2.2.2 rfl,
   (running_flag_latch { running := true } [sampleQueued] "").2.2.1⟩

/-- C1 fails on the code: `stop_all` merely sets `running = False`, which is
exactly the state in which `download_multiple` dispatches. After
`stop_all`, the very next `download_multiple` call submits a task for a
`queued` item (its url is recorded as submitted), so the item would
transition to `downloading`. -/
theorem stop_all_does_not_prevent_future_dispatch :
    (DownloadManager.stop_all { running := true }).running = false
    ∧ (DownloadManager.download_multiple
        (DownloadManager.stop_all { running := true })
        [sampleQueued]).submitted = [sampleQueued.url] := by
  exact ⟨rfl, rfl⟩

/-- C3: in the pool in which `download_multiple` places one task per queued
item, at most `K` tasks execute concurrently in every state reachable from
the dispatch, for all `N ≥ K ≥ 1`. -/
theorem dispatch_bounded_concurrency (K N : Nat) (items : List DownloadItem)
    (hK : 1 ≤ K) (hN : K ≤ N)
    (hlen : (DownloadQueue.get_queued_items items).length = N)
    (s : PoolState)
    (hreach : Relation.ReflTransGen (PoolStep K) (dispatchInit items) s) :
    s.running ≤ K := by
  induction hreach with
  | refl => exact Nat.zero_le K
  | tail hab hbc ih =>
    cases hbc with
    | start hp hr => exact hr
    | finish hr => exact le_trans (Nat.sub_le _ _) ih

/-- C3 witness: the dispatch state for one queued item with limit 1. -/
theorem dispatch_bounded_concurrency_witness :
    (dispatchInit [sampleQueued]).running ≤ 1 :=
  dispatch_bounded_concurrency 1 1 [sampleQueued] (le_refl 1) (le_refl 1)
    (by decide) (dispatchInit [sampleQueued]) Relation.ReflTransGen.refl

/-- C5: the progress hook emits an event iff the payload's status tag is
`downloading`; the emitted percentage is `downloaded/total * 100` when
`total > 0` and `0` otherwise; present speed and eta values pass through
unchanged; and on total=1000 with downloaded 0, 250, 1000 the emitted
progress is 0, 25, 100. -/
theorem progress_hook_emits_only_downloading (d : ProgressPayload)
    (s : String) (hs : d.status = some s) :
    ((YouTubeProgressHook.progress_hook d).isSome = true ↔ s = "downloading")
    ∧ (∀ e, YouTubeProgressHook.progress_hook d = some e →
        e.progress = (if 0 < YouTubeProgressHook.payloadTotal d
          then ((YouTubeProgressHook.payloadDownloaded d : ℚ) /
            (YouTubeProgressHook.payloadTotal d : ℚ)) * 100
          else 0)
        ∧ (∀ sp, d.speed = some sp → e.speed = sp)
        ∧ (∀ et, d.eta = some et → e.eta = et))
    ∧ (YouTubeProgressHook.progress_hook
        { status := some "downloading", downloaded_bytes := some 0,
          total_bytes := some 1000 }).map ProgressEvent.progress = some 0
    ∧ (YouTubeProgressHook.progress_hook
        { status := some "downloading", downloaded_bytes := some 250,
          total_bytes := some 1000 }).map ProgressEvent.progress = some 25
    ∧ (YouTubeProgressHook.progress_hook
        { status := some "downloading", downloaded_bytes := some 1000,
          total_bytes := some 1000 }).map ProgressEvent.progress
        = some 100 := by
  refine ⟨?_, ?_,
    by norm_num [YouTubeProgressHook.progress_hook,
      YouTubeProgressHook.payloadDownloaded, YouTubeProgressHook.payloadTotal],
    by norm_num [YouTubeProgressHook.progress_hook,
      YouTubeProgressHook.payloadDownloaded, YouTubeProgressHook.payloadTotal],
    by norm_num [YouTubeProgressHook.progress_hook,
      YouTubeProgressHook.payloadDownloaded, YouTubeProgressHook.payloadTotal]⟩
  · unfold YouTubeProgressHook.progress_hook
    rw [hs]
    by_cases hd : s = "downloading"
    · simp [hd]
    · simp [hd]
  · intro e he
    unfold YouTubeProgressHook.progress_hook at he
    rw [hs] at he
    simp only [Option.getD_some] at he
    by_cases hd : s = "downloading"
    · rw [if_neg (by simp [hd])] at he
      obtain rfl := Option.some_injective _ he
      refine ⟨rfl, fun sp hsp => ?_, fun et het => ?_⟩
      · simp [hsp]
      · simp [het]
    · rw [if_pos (by simpa using hd)] at he
      exact absurd he (Option.noConfusion)

/-- C5 witness: the 25% payload carries the `downloading` tag, so the hook
emits. -/
theorem progress_hook_emits_witness :
    (YouTubeProgressHook.progress_hook
      { status := some "downloading", downloaded_bytes := some 250,
        total_bytes := some 1000 }).isSome = true :=
  (progress_hook_emits_only_downloading
    { status := some "downloading", downloaded_bytes := some 250,
      total_bytes := some 1000 } "downloading" rfl).1.mpr rfl

/-- C6 fails on the code for the `192k` audio tier: the selector is
`bestaudio[ext=m4a]/bestaudio`, whose fallback is by container (`m4a`), not
by an explicit audio-bitrate ceiling — no `abr<=` filter occurs in it. -/
theorem format_string_192k_no_bitrate_ceiling :
    YouTubeHandler.get_format_string
        { video_quality := "audio", audio_quality := "192k" }
      = "bestaudio[ext=m4a]/bestaudio"
    ∧ hasAudioBitrateCeiling
        (YouTubeHandler.get_format_string
          { video_quality := "audio", audio_quality := "192k" }) = false := by
  constructor
  · rfl
  · decide

/-- C6 amended: the audio tier maps `best` to `bestaudio/best`, `192k` to
the container fallback `bestaudio[ext=m4a]/bestaudio` (no bitrate ceiling),
and every other audio quality to `bestaudio[abr<=128]/bestaudio` (explicit
bitrate ceiling); each video tier prefers combined video+audio at its
resolution ceiling in the requested container, then best at that ceiling in
that container, then any best; unknown video tiers use the `best`
selector. -/
theorem format_string_selectors (config : Settings) :
    (config.video_quality = "audio" →
      (config.audio_quality = "best" →
        YouTubeHandler.get_format_string config = "bestaudio/best")
      ∧ (config.audio_quality = "192k" →
        YouTubeHandler.get_format_string config
          = "bestaudio[ext=m4a]/bestaudio")
      ∧ (config.audio_quality ≠ "best" → config.audio_quality ≠ "192k" →
        YouTubeHandler.get_format_string config
            = "bestaudio[abr<=128]/bestaudio"
          ∧ hasAudioBitrateCeiling
              (YouTubeHandler.get_format_string config) = true))
    ∧ (config.video_quality = "1080p" →
      YouTubeHandler.get_format_string config
        = "bestvideo[height<=1080][ext=" ++ config.preferred_format ++
          "]+bestaudio[ext=m4a]/best[height<=1080][ext=" ++
          config.preferred_format ++ "]/best")
    ∧ (config.video_quality = "720p" →
      YouTubeHandler.get_format_string config
        = "bestvideo[height<=720][ext=" ++ config.preferred_format ++
          "]+bestaudio[ext=m4a]/best[height<=720][ext=" ++
          config.preferred_format ++ "]/best")
    ∧ (config.video_quality = "480p" →
      YouTubeHandler.get_format_string config
        = "bestvideo[height<=480][ext=" ++ config.preferred_format ++
          "]+bestaudio[ext=m4a]/best[height<=480][ext=" ++
          config.preferred_format ++ "]/best")
    ∧ (config.video_quality ≠ "audio" → config.video_quality ≠ "1080p" →
        config.video_quality ≠ "720p" → config.video_quality ≠ "480p" →
      YouTubeHandler.get_format_string config
        = "bestvideo[ext=" ++ config.preferred_format ++
          "]+bestaudio[ext=m4a]/best[ext=" ++
          config.preferred_format ++ "]/best") := by
  unfold YouTubeHandler.get_format_string
  refine ⟨fun ha => ⟨fun hb => ?_, fun hb => ?_, fun hb hb' => ⟨?_, ?_⟩⟩,
    fun h => ?_, fun h => ?_, fun h => ?_, fun h1 h2 h3 h4 => ?_⟩ <;>
    (simp_all <;> decide)

/-- C6 amended witness: the 1080p tier with the `webm` container. -/
theorem format_string_selectors_witness :
    YouTubeHandler.get_format_string
        { video_quality := "1080p", preferred_format := "webm" }
      = "bestvideo[height<=1080][ext=webm]+bestaudio[ext=m4a]/best[height<=1080][ext=webm]/best" := by
  have h := (format_string_selectors
    { video_quality := "1080p", preferred_format := "webm" }).2.1 rfl
  exact h.trans (by decide)

end Videoteka
